import Mathlib

/-!
Verification development for the SwarmSpawner service-lifecycle logic
(`dockerspawner/swarmspawner.py`).

The Python class is embedded shallowly:

* the persisted spawner state is `SwarmState` (its single durable field,
  `service_id`);
* engine calls are modelled by passing the engine's response explicitly
  (`Except Nat α` — a failure carries the HTTP-style status code);
* Python dicts that matter for ordering (the volume maps) are modelled as
  insertion-ordered association lists, with `binds_insert` reproducing the
  update-in-place-or-append semantics of a Python dict assignment;
* Python string comparison (used by `sorted`) is modelled by the
  code-point-lexicographic relation `str_le`.
-/

namespace SwarmSpawner

/-! ## Persisted state: `load_state` / `get_state` (swarmspawner.py lines 429-437) -/

/-- The durable per-spawner record: the `service_id` traitlet. -/
structure SwarmState where
  service_id : String
deriving Repr, DecidableEq

/-- `load_state`: `self.service_id = state.get('service_id', '')`.  The incoming
state dict is modelled by its optional `service_id` entry. -/
def load_state (state : Option String) : String :=
  state.getD ""

/-- `get_state`: the `service_id` key is added only when `self.service_id` is
truthy, i.e. a non-empty string. -/
def get_state (service_id : String) : Option String :=
  if service_id = "" then none else some service_id

/-! ## `stop` (lines 702-720) and `clear_state`

`stop` awaits `remove_service` and then calls `clear_state()`.  There is no
try/except around the engine call, so an engine failure propagates and the
code after it does not run. -/

/-- Modelled from the spec: `clear_state` is inherited from the hub's base
`Spawner` class (not in src/); per the spec it clears the local service
record. -/
def clear_state (s : SwarmState) : SwarmState :=
  { s with service_id := "" }

/-- `stop`: `yield self.docker('remove_service', self.service_id)` followed by
`self.clear_state()`.  The engine's response to the remove call is passed in;
a raised `APIError` (status code) propagates before `clear_state` runs. -/
def stop (remove_result : Except Nat Unit) (s : SwarmState) : Except Nat SwarmState :=
  match remove_result with
  | .error e => .error e
  | .ok _ => .ok (clear_state s)

/-! ## CPU resource conversion (lines 606-607)

`cpu_limit=int(self.cpu_limit * 1e9) if self.cpu_limit else None` (and the
same for `cpu_reservation` from `cpu_guarantee`).  Python `int()` truncates
toward zero; an unset (`None`) value and a zero value are both falsy. -/

/-- Python `int()` on a number: truncation toward zero. -/
def int_trunc (q : ℚ) : ℤ :=
  if 0 ≤ q then ⌊q⌋ else ⌈q⌉

/-- The conditional expression `int(x * 1e9) if x else None` applied to a
configured CPU value (`None` modelled as `none`). -/
def convert_cpu (cpu : Option ℚ) : Option ℤ :=
  match cpu with
  | none => none
  | some q => if q ≠ 0 then some (int_trunc (q * 10 ^ 9)) else none

/-! ## Volume translation (lines 356-408, 722-740) -/

/-- A value of the `volumes` / `read_only_volumes` dict: either a bare bind
path string, or a dict with a `bind` key and an optional `mode` key. -/
inductive VolumeValue where
  | str (bind : String)
  | dict (bind : String) (mode : Option String)
deriving Repr, DecidableEq

/-- One entry of the binds dict: `{'bind': ..., 'mode': ...}`. -/
structure BindEntry where
  bind : String
  mode : String
deriving Repr, DecidableEq

/-- The binds dict, as an insertion-ordered association list (Python dict). -/
abbrev Binds := List (String × BindEntry)

/-- Python dict assignment `binds[k] = v`: replace in place if the key is
present, otherwise append. -/
def binds_insert (binds : Binds) (k : String) (v : BindEntry) : Binds :=
  if binds.any (fun p => p.1 = k) then
    binds.map (fun p => if p.1 = k then (k, v) else p)
  else
    binds ++ [(k, v)]

/-- `_volumes_to_binds(volumes, binds, mode)`: for each entry, a dict value
may override the default mode and supplies the bind path; both host and guest
paths pass through `format_volume_name` (`fmt`). -/
def volumes_to_binds (fmt : String → String) (volumes : List (String × VolumeValue))
    (binds : Binds) (mode : String) : Binds :=
  match volumes with
  | [] => binds
  | (k, v) :: rest =>
    let m := match v with
      | .str _ => mode
      | .dict _ mo => mo.getD mode
    let b := match v with
      | .str b => b
      | .dict b _ => b
    volumes_to_binds fmt rest (binds_insert binds (fmt k) { bind := fmt b, mode := m }) mode

/-- `volume_binds`: layer `read_only_volumes` (default mode `ro`) on top of
`volumes` (default mode `rw`). -/
def volume_binds (fmt : String → String)
    (volumes read_only_volumes : List (String × VolumeValue)) : Binds :=
  volumes_to_binds fmt read_only_volumes (volumes_to_binds fmt volumes [] "rw") "ro"

/-- Code-point-lexicographic comparison of char lists: the order Python's
`sorted` uses on strings. -/
def chars_le : List Char → List Char → Bool
  | [], _ => true
  | _ :: _, [] => false
  | a :: as, b :: bs => if a = b then chars_le as bs else decide (a < b)

/-- The corresponding relation on strings. -/
def str_le (a b : String) : Prop :=
  chars_le a.toList b.toList = true

instance str_le_dec : DecidableRel str_le := fun _ _ => instDecidableEqBool _ _

/-- `volume_mount_points`: `sorted([value['bind'] for value in
self.volume_binds.values()])`. -/
def volume_mount_points (fmt : String → String)
    (volumes read_only_volumes : List (String × VolumeValue)) : List String :=
  List.insertionSort str_le
    ((volume_binds fmt volumes read_only_volumes).map (fun p => p.2.bind))

/-- `DriverConfig(name=self.volume_driver, options=self.volume_driver_options
or None)`. -/
structure DriverCfg where
  name : String
  options : Option (List (String × String))
deriving Repr, DecidableEq

/-- `mount_driver_config` property. -/
def mount_driver_config (volume_driver : String)
    (volume_driver_options : List (String × String)) : DriverCfg :=
  { name := volume_driver,
    options := if volume_driver_options = [] then none else some volume_driver_options }

/-- A docker `Mount` as constructed by the `mounts` property. -/
structure Mount where
  target : String
  source : String
  type : String
  ro : Bool
  driver_config : DriverCfg
deriving Repr, DecidableEq

/-- `mounts` property: one `Mount` per entry of `volume_binds`, in the dict's
iteration (insertion) order; empty when there are no binds. -/
def mounts (fmt : String → String) (volume_driver : String)
    (volume_driver_options : List (String × String))
    (volumes read_only_volumes : List (String × VolumeValue)) : List Mount :=
  let vb := volume_binds fmt volumes read_only_volumes
  if vb.length = 0 then []
  else
    let driver := mount_driver_config volume_driver volume_driver_options
    vb.map (fun p =>
      { target := p.2.bind, source := p.1, type := "bind",
        ro := p.2.mode = "ro", driver_config := driver })

/-! ## Escaped service name (lines 263-264, 410-419)

`escaped_name` calls `escapism.escape(self.user.name, safe=_service_safe_chars,
escape_char='_')` with `_service_safe_chars = set(ascii_letters + digits + '-')`. -/

/-- Membership in `_service_safe_chars` (ASCII letters, digits, and `-`),
byte-level. -/
def is_safe_byte (b : Nat) : Bool :=
  (65 ≤ b && b ≤ 90) || (97 ≤ b && b ≤ 122) || (48 ≤ b && b ≤ 57) || b == 45

/-- Uppercase hexadecimal digit of a value below 16. -/
def hex_digit (n : Nat) : Nat :=
  if n < 10 then 48 + n else 55 + n

/-- Modelled from the spec: the `escapism` escape step (library code, not in
src/) maps every byte outside the safe alphabet to a fixed escape sequence
seeded by the dedicated escape character `_` (byte 95): the escape character
followed by the byte's two hexadecimal digits. -/
def escape_byte (b : Nat) : List Nat :=
  [95, hex_digit (b / 16), hex_digit (b % 16)]

/-- Modelled from the spec: full escaping of a username (as its UTF-8 bytes):
safe bytes pass through, every other byte becomes its escape sequence. -/
def escape (username : List Nat) : List Nat :=
  match username with
  | [] => []
  | b :: rest => (if is_safe_byte b then [b] else escape_byte b) ++ escape rest

/-! ## Service-spec key partition (lines 547-563, 623-639) -/

/-- `_container_spec_keys` property (the split-and-strip of the literal
comma-separated string). -/
def container_spec_keys : List String :=
  ["image", "command", "args", "hostname", "env", "workdir", "user", "labels",
   "mounts", "stop_grace_period", "secrets", "tty", "groups", "open_stdin",
   "read_only", "stop_signal", "healthcheck", "hosts", "dns_config", "configs",
   "privileges"]

/-- `_resource_spec_keys` property. -/
def resource_spec_keys : List String :=
  ["cpu_limit", "mem_limit", "cpu_reservation", "mem_reservation"]

/-- `_task_spec_keys` property. -/
def task_spec_keys : List String := ["networks"]

/-- `_endpoint_spec_keys` property. -/
def endpoint_spec_keys : List String := ["ports"]

/-- `{k: v for k, v in create_kwargs.items() if k in self._container_spec_keys}`,
restricted to the key set of the dict. -/
def container_spec_slice (keys : List String) : List String :=
  keys.filter (fun k => container_spec_keys.contains k)

/-- Resource-spec slice of the create-options keys. -/
def resource_spec_slice (keys : List String) : List String :=
  keys.filter (fun k => resource_spec_keys.contains k)

/-- Task-spec slice of the create-options keys. -/
def task_spec_slice (keys : List String) : List String :=
  keys.filter (fun k => task_spec_keys.contains k)

/-- Endpoint-spec slice of the create-options keys. -/
def endpoint_spec_slice (keys : List String) : List String :=
  keys.filter (fun k => endpoint_spec_keys.contains k)

/-- `remaining_keys = set(create_kwargs.keys()) - set().union(...)` with the
four key lists and the singleton `{"name"}`. -/
def remaining_keys (keys : List String) : List String :=
  keys.filter (fun k =>
    !(container_spec_keys.contains k) && !(resource_spec_keys.contains k) &&
    !(task_spec_keys.contains k) && !(endpoint_spec_keys.contains k) &&
    !(k == "name"))

/-! ## Discovery: `get_service` (lines 499-521) and `get_task` (lines 523-544) -/

/-- The parts of an inspected service the core reads: its `ID` and the env
lines under `Config.Env`. -/
structure Service where
  id : String
  env : List (List Char)
deriving Repr, DecidableEq

/-- A task returned by the engine's task query. -/
structure Task where
  id : String
deriving Repr, DecidableEq

/-- The ways `get_task` can abort: the `RuntimeError` for a duplicated running
task, or a re-raised `APIError` with its status code. -/
inductive GetTaskErr where
  | consistency_violation (msg : String)
  | api_error (status : Nat)
deriving Repr, DecidableEq

/-- `get_service`: on success record the service id; a 404 (`gone`) or 500
(`unhealthy node`) response yields `None` and forgets the id; any other
`APIError` is re-raised.  Returns the service together with the updated
state. -/
def get_service (s : SwarmState) (resp : Except Nat Service) :
    Except Nat (Option Service × SwarmState) :=
  match resp with
  | .ok service => .ok (some service, { s with service_id := service.id })
  | .error status =>
    if status = 404 then .ok (none, { s with service_id := "" })
    else if status = 500 then .ok (none, { s with service_id := "" })
    else .error status

/-- The body of `get_task` acting on the engine's task list: zero tasks yield
`None`, more than one raises the `RuntimeError`, exactly one is returned. -/
def get_task_of_list (service_name : String) (tasks : List Task) :
    Except GetTaskErr (Option Task) :=
  if tasks.length = 0 then .ok none
  else if tasks.length > 1 then
    .error (.consistency_violation
      ("Found more than one running notebook task for service '" ++ service_name ++ "'"))
  else .ok tasks.head?

/-- `get_task` after the initial guard: the `tasks` engine call may itself
fail; a 404 yields `None`, any other `APIError` is re-raised; the
`RuntimeError` is not an `APIError`, so it is never caught. -/
def get_task_engine (service_name : String) (resp : Except Nat (List Task)) :
    Except GetTaskErr (Option Task) :=
  match resp with
  | .ok tasks => get_task_of_list service_name tasks
  | .error status => if status = 404 then .ok none else .error (.api_error status)

/-- The object returned by calling a `gen.coroutine`-decorated method without
yielding it: a Tornado `Future`.  Such a call always returns a `Future`
object, never `None`. -/
structure TornadoFuture where
  state : SwarmState
deriving Repr, DecidableEq

/-- The un-awaited call `self.get_service()` in `get_task`: calling a
coroutine function returns its `Future`. -/
def get_service_unawaited (s : SwarmState) : Option TornadoFuture :=
  some { state := s }

/-- `get_task` with its leading guard `if self.get_service() is None: return
None` (line 526), comparing the un-awaited call's result to `None`. -/
def get_task (s : SwarmState) (service_name : String) (resp : Except Nat (List Task)) :
    Except GetTaskErr (Option Task) :=
  if (get_service_unawaited s).isNone then .ok none
  else get_task_engine service_name resp

/-! ## `start` branch structure and API-token reuse (lines 579-657) -/

/-- `line.startswith(('JPY_API_TOKEN=', 'JUPYTERHUB_API_TOKEN='))`. -/
def token_line_matches (line : List Char) : Bool :=
  List.isPrefixOf "JPY_API_TOKEN=".toList line ||
    List.isPrefixOf "JUPYTERHUB_API_TOKEN=".toList line

/-- `line.split('=', 1)[1]`: everything after the first `=`.  (Only applied to
lines that match one of the two recognized token keys, which contain `=`.) -/
def split_after_first_eq (line : List Char) : List Char :=
  (line.dropWhile (fun c => c ≠ '=')).tail

/-- The reuse loop over `service['Config']['Env']`: the first matching line
sets `self.api_token` and breaks; otherwise the token is unchanged. -/
def extract_api_token (env : List (List Char)) (api_token : List Char) : List Char :=
  match env with
  | [] => api_token
  | line :: rest =>
    if token_line_matches line then split_after_first_eq line
    else extract_api_token rest api_token

/-- The engine mutations `start` can issue. -/
inductive EngineCall where
  | create_service
  | remove_service
deriving Repr, DecidableEq

/-- The branch structure of `start` after its initial `get_service`: a present
service with `remove_services` set is removed and re-created; an absent
service is created; otherwise the service is reused and the API token
extracted from its env.  Returns the issued engine mutations and the
resulting `api_token`. -/
def start_calls_and_token (service : Option Service) (remove_services : Bool)
    (api_token : List Char) : List EngineCall × List Char :=
  match service with
  | none => ([.create_service], api_token)
  | some svc =>
    if remove_services then ([.remove_service, .create_service], api_token)
    else ([], extract_api_token svc.env api_token)

/-! ## Helper lemmas about the string order -/

theorem chars_le_total : ∀ a b, chars_le a b = true ∨ chars_le b a = true := by
  intro a
  induction a with
  | nil => intro b; left; rfl
  | cons x xs ih =>
    intro b
    cases b with
    | nil => right; rfl
    | cons y ys =>
      by_cases h : x = y
      · subst h
        rcases ih ys with h1 | h1
        · left; simpa [chars_le] using h1
        · right; simpa [chars_le] using h1
      · rcases lt_or_gt_of_ne h with hlt | hgt
        · left; simp [chars_le, h, hlt]
        · right
          have hne : y ≠ x := fun hyx => h hyx.symm
          simp [chars_le, hne, hgt]

theorem chars_le_trans :
    ∀ a b c, chars_le a b = true → chars_le b c = true → chars_le a c = true := by
  intro a
  induction a with
  | nil => intro b c _ _; rfl
  | cons x xs ih =>
    intro b c hab hbc
    cases b with
    | nil => simp [chars_le] at hab
    | cons y ys =>
      cases c with
      | nil => simp [chars_le] at hbc
      | cons z zs =>
        simp only [chars_le] at hab hbc ⊢
        by_cases hxy : x = y
        · subst hxy
          rw [if_pos rfl] at hab
          by_cases hxz : x = z
          · subst hxz
            rw [if_pos rfl] at hbc ⊢
            exact ih ys zs hab hbc
          · rw [if_neg hxz] at hbc ⊢
            exact hbc
        · rw [if_neg hxy] at hab
          have hab' : x < y := of_decide_eq_true hab
          by_cases hyz : y = z
          · subst hyz
            rw [if_neg hxy]
            exact decide_eq_true hab'
          · rw [if_neg hyz] at hbc
            have hbc' : y < z := of_decide_eq_true hbc
            have hxz : x < z := lt_trans hab' hbc'
            rw [if_neg (ne_of_lt hxz)]
            exact decide_eq_true hxz

instance str_le_is_total : IsTotal String str_le :=
  ⟨fun a b => chars_le_total a.toList b.toList⟩

instance str_le_is_trans : IsTrans String str_le :=
  ⟨fun a b c => chars_le_trans a.toList b.toList c.toList⟩

/-! ## C1 -/

/-- C1 counterexample: when `remove_service` fails with NotFound (404), `stop`
propagates the error and `clear_state` is never reached — refuting the claim
that the local record is always cleared regardless of the remove outcome. -/
theorem stop_error_skips_clear_state :
    (stop (Except.error 404) { service_id := "abc" }).isOk = false := by
  rfl

/-- C1 (amended): `stop` clears the local service record exactly when the
engine remove call succeeds; any engine failure (including NotFound)
propagates to the caller before `clear_state` runs, leaving the record
untouched. -/
theorem stop_clears_state_iff_remove_succeeds :
    ∀ (s : SwarmState),
      stop (Except.ok ()) s = Except.ok { service_id := "" } ∧
      ∀ e, stop (Except.error e) s = Except.error e := by
  intro s
  exact ⟨rfl, fun e => rfl⟩

/-! ## C2 -/

/-- C2 counterexample: an explicitly configured CPU limit of zero is collapsed
with `unset` — the truthiness test `if self.cpu_limit` maps `some 0` to the
same absent resource value as `none`. -/
theorem convert_cpu_zero_is_absent :
    convert_cpu (some 0) = none ∧ convert_cpu none = none := by
  constructor
  · simp [convert_cpu]
  · rfl

/-- C2 (amended): a missing CPU value passes through as absent, and an
explicitly configured zero is also treated as absent (the truthiness test
collapses zero with unset); a present nonzero value is converted to integer
nano-units with truncation toward zero (floor for positive values, ceiling
for negative ones). -/
theorem convert_cpu_semantics :
    ∀ q : ℚ,
      convert_cpu none = none ∧
      convert_cpu (some 0) = none ∧
      (0 < q → ∃ n : ℤ, convert_cpu (some q) = some n ∧
        (n : ℚ) ≤ q * 10 ^ 9 ∧ q * 10 ^ 9 < (n : ℚ) + 1 ∧ 0 ≤ n) ∧
      (q < 0 → ∃ n : ℤ, convert_cpu (some q) = some n ∧
        q * 10 ^ 9 ≤ (n : ℚ) ∧ (n : ℚ) - 1 < q * 10 ^ 9 ∧ n ≤ 0) := by
  intro q
  refine ⟨rfl, by simp [convert_cpu], ?_, ?_⟩
  · intro hq
    have hq9 : (0 : ℚ) ≤ q * 10 ^ 9 := by positivity
    refine ⟨⌊q * 10 ^ 9⌋, ?_, Int.floor_le _, ?_, Int.floor_nonneg.mpr hq9⟩
    · simp [convert_cpu, ne_of_gt hq, int_trunc, hq9]
    · exact Int.lt_floor_add_one (q * 10 ^ 9)
  · intro hq
    have hq9 : q * 10 ^ 9 < 0 := by
      have : (0 : ℚ) < 10 ^ 9 := by norm_num
      exact mul_neg_of_neg_of_pos hq this
    have hq9' : ¬ (0 : ℚ) ≤ q * 10 ^ 9 := not_le.mpr hq9
    refine ⟨⌈q * 10 ^ 9⌉, ?_, Int.le_ceil _, ?_, ?_⟩
    · simp [convert_cpu, ne_of_lt hq, int_trunc, hq9']
    · have := Int.ceil_lt_add_one (q * 10 ^ 9)
      linarith
    · have h0 : (q * 10 ^ 9 : ℚ) ≤ ((0 : ℤ) : ℚ) := by exact_mod_cast le_of_lt hq9
      exact Int.ceil_le.mpr h0

/-- C2 witness: a concrete fractional limit of 3/2 CPUs. -/
theorem convert_cpu_semantics_witness :
    (0 : ℚ) < 3 / 2 ∧
    (∃ n : ℤ, convert_cpu (some (3 / 2)) = some n ∧
      (n : ℚ) ≤ (3 / 2 : ℚ) * 10 ^ 9 ∧ (3 / 2 : ℚ) * 10 ^ 9 < (n : ℚ) + 1 ∧ 0 ≤ n) :=
  ⟨by norm_num, ((convert_cpu_semantics (3 / 2)).2.2.1 (by norm_num))⟩

/-! ## C3 -/

/-- C3 counterexample: with two plain volume entries whose bind paths arrive
in descending order, the `mounts` list for the service spec follows the input
insertion order and is not sorted by container (target) path. -/
theorem mounts_not_sorted_by_target :
    ¬ List.Sorted str_le
      ((mounts id "" [] [("/h1", VolumeValue.str "/z"), ("/h2", VolumeValue.str "/a")] []).map
        Mount.target) := by
  decide

/-- C3 (amended): the `mounts` list follows the insertion order of the
combined binds map (its targets are a permutation of the sorted
`volume_mount_points` list) rather than being itself sorted by container
path; the sorted-by-container-path guarantee holds for `volume_mount_points`,
and both are deterministic functions of the input maps. -/
theorem mounts_targets_perm_sorted_points :
    ∀ (fmt : String → String) (vd : String) (vdo : List (String × String))
      (volumes ro : List (String × VolumeValue)),
      List.Perm ((mounts fmt vd vdo volumes ro).map Mount.target)
        (volume_mount_points fmt volumes ro) ∧
      List.Sorted str_le (volume_mount_points fmt volumes ro) := by
  intro fmt vd vdo volumes ro
  constructor
  · have h : (mounts fmt vd vdo volumes ro).map Mount.target =
        (volume_binds fmt volumes ro).map (fun p => p.2.bind) := by
      unfold mounts
      by_cases h0 : (volume_binds fmt volumes ro).length = 0
      · rw [List.eq_nil_of_length_eq_zero h0]
        simp
      · rw [if_neg h0, List.map_map]
        rfl
    rw [h]
    exact (List.perm_insertionSort _ _).symm
  · exact List.sorted_insertionSort _ _

/-! ## C4 helpers -/

theorem hex_digit_inj : ∀ n < 16, ∀ m < 16, hex_digit n = hex_digit m → n = m := by
  decide

theorem hex_digit_is_safe : ∀ n < 16, is_safe_byte (hex_digit n) = true := by
  decide

theorem escape_ne_nil (x : Nat) (xs : List Nat) : escape (x :: xs) ≠ [] := by
  by_cases hs : is_safe_byte x <;> simp [escape, hs, escape_byte]

/-- Injectivity of the escaping step on byte strings. -/
theorem escape_inj :
    ∀ (xs ys : List Nat), (∀ b ∈ xs, b < 256) → (∀ b ∈ ys, b < 256) →
      escape xs = escape ys → xs = ys := by
  intro xs
  induction xs with
  | nil =>
    intro ys _ _ h
    cases ys with
    | nil => rfl
    | cons y ys' => exact absurd h.symm (escape_ne_nil y ys')
  | cons x xs' ih =>
    intro ys hx hy h
    cases ys with
    | nil => exact absurd h (escape_ne_nil x xs')
    | cons y ys' =>
      have hx' : ∀ b ∈ xs', b < 256 := fun b hb => hx b (List.mem_cons_of_mem _ hb)
      have hy' : ∀ b ∈ ys', b < 256 := fun b hb => hy b (List.mem_cons_of_mem _ hb)
      have hxlt : x < 256 := hx x (List.mem_cons_self _ _)
      have hylt : y < 256 := hy y (List.mem_cons_self _ _)
      have ex : escape (x :: xs') = (if is_safe_byte x then [x] else escape_byte x) ++ escape xs' := rfl
      have ey : escape (y :: ys') = (if is_safe_byte y then [y] else escape_byte y) ++ escape ys' := rfl
      rw [ex, ey] at h
      by_cases hsx : is_safe_byte x <;> by_cases hsy : is_safe_byte y
      · rw [if_pos hsx, if_pos hsy] at h
        simp only [List.singleton_append, List.cons.injEq] at h
        rw [h.1, ih ys' hx' hy' h.2]
      · exfalso
        rw [if_pos hsx, if_neg hsy] at h
        simp only [escape_byte, List.singleton_append, List.cons_append, List.nil_append,
          List.cons.injEq] at h
        rw [h.1] at hsx
        exact absurd hsx (by decide)
      · exfalso
        rw [if_neg hsx, if_pos hsy] at h
        simp only [escape_byte, List.singleton_append, List.cons_append, List.nil_append,
          List.cons.injEq] at h
        rw [← h.1] at hsy
        exact absurd hsy (by decide)
      · rw [if_neg hsx, if_neg hsy] at h
        simp only [escape_byte, List.cons_append, List.nil_append, List.cons.injEq,
          true_and] at h
        obtain ⟨h1, h2, h3⟩ := h
        have hd : x / 16 = y / 16 :=
          hex_digit_inj (x / 16) (by omega) (y / 16) (by omega) h1
        have hm : x % 16 = y % 16 :=
          hex_digit_inj (x % 16) (by omega) (y % 16) (by omega) h2
        have hxy : x = y := by omega
        rw [hxy, ih ys' hx' hy' h3]

/-- Every byte of an escaped name is either in the safe alphabet or the
escape character itself. -/
theorem escape_mem :
    ∀ (xs : List Nat), (∀ b ∈ xs, b < 256) →
      ∀ b ∈ escape xs, is_safe_byte b = true ∨ b = 95 := by
  intro xs
  induction xs with
  | nil => intro _ b hb; simp [escape] at hb
  | cons x xs' ih =>
    intro hx b hb
    have hx' : ∀ b ∈ xs', b < 256 := fun b hb => hx b (List.mem_cons_of_mem _ hb)
    have hxlt : x < 256 := hx x (List.mem_cons_self _ _)
    simp only [escape, List.mem_append] at hb
    rcases hb with hb | hb
    · by_cases hs : is_safe_byte x
      · simp only [if_pos hs, List.mem_singleton] at hb
        exact Or.inl (hb ▸ hs)
      · simp only [if_neg hs, escape_byte, List.mem_cons, List.mem_singleton,
          List.not_mem_nil, or_false] at hb
        rcases hb with hb | hb | hb
        · exact Or.inr hb
        · exact Or.inl (hb ▸ hex_digit_is_safe (x / 16) (by omega))
        · exact Or.inl (hb ▸ hex_digit_is_safe (x % 16) (by omega))
    · exact ih hx' b hb

/-! ## C4 -/

/-- C4 counterexample: escaping the username `"a b"` (bytes 97, 32, 98)
produces `"a_20b"`, which contains the escape character `_` (byte 95) — a
character outside the safe alphabet `[A-Za-z0-9-]`, refuting the claim that
the escaped output consists only of safe-alphabet characters. -/
theorem escape_output_outside_safe_alphabet :
    ((escape [97, 32, 98]).all (fun b => is_safe_byte b)) = false := by
  decide

/-- C4 (amended): for usernames given as byte strings, the escaping is
injective (distinct usernames never collapse to the same escaped string), and
every byte of the escaped output is either in the safe alphabet
`[A-Za-z0-9-]` or the dedicated escape character `_` itself. -/
theorem escape_injective_and_near_safe :
    ∀ (xs ys : List Nat), (∀ b ∈ xs, b < 256) → (∀ b ∈ ys, b < 256) →
      (escape xs = escape ys → xs = ys) ∧
      (∀ b ∈ escape xs, is_safe_byte b = true ∨ b = 95) :=
  fun xs ys hx hy => ⟨escape_inj xs ys hx hy, escape_mem xs hx⟩

/-- C4 witness: concrete usernames `"a "` and `" b"`. -/
theorem escape_injective_and_near_safe_witness :
    (∀ b ∈ ([97, 32] : List Nat), b < 256) ∧
    (∀ b ∈ ([32, 98] : List Nat), b < 256) ∧
    ((escape [97, 32] = escape [32, 98] → ([97, 32] : List Nat) = [32, 98]) ∧
      (∀ b ∈ escape ([97, 32] : List Nat), is_safe_byte b = true ∨ b = 95)) :=
  ⟨by decide, by decide,
    escape_injective_and_near_safe [97, 32] [32, 98] (by decide) (by decide)⟩

/-! ## C5 helpers: the four static key sets are pairwise disjoint -/

theorem cont_res_disjoint : ∀ k ∈ container_spec_keys, k ∉ resource_spec_keys := by decide

theorem cont_task_disjoint : ∀ k ∈ container_spec_keys, k ∉ task_spec_keys := by decide

theorem cont_endp_disjoint : ∀ k ∈ container_spec_keys, k ∉ endpoint_spec_keys := by decide

theorem res_task_disjoint : ∀ k ∈ resource_spec_keys, k ∉ task_spec_keys := by decide

theorem res_endp_disjoint : ∀ k ∈ resource_spec_keys, k ∉ endpoint_spec_keys := by decide

theorem task_endp_disjoint : ∀ k ∈ task_spec_keys, k ∉ endpoint_spec_keys := by decide

/-! ## C5 -/

/-- C5 counterexample: the key `"name"` — always present in the flat
create-options map built by `start` — appears in none of the four spec slices
and is also excluded from the reported unused-keys set, refuting the claim
that every key of the map lands in exactly one slice or in the unused set. -/
theorem name_key_in_no_slice :
    container_spec_slice ["name"] = [] ∧ resource_spec_slice ["name"] = [] ∧
    task_spec_slice ["name"] = [] ∧ endpoint_spec_slice ["name"] = [] ∧
    remaining_keys ["name"] = [] := by
  decide

/-- C5 (amended): every key of the flat create-options map other than the
explicitly excluded top-level `"name"` (consumed as the service name) appears
in exactly one of the four spec slices or in the reported unused-keys set;
the partition is a total set-membership filter and never raises. -/
theorem create_kwargs_partition_exactly_one :
    ∀ (keys : List String) (k : String), k ∈ keys → k ≠ "name" →
      List.countP (fun slice => decide (k ∈ slice))
        [container_spec_slice keys, resource_spec_slice keys, task_spec_slice keys,
         endpoint_spec_slice keys, remaining_keys keys] = 1 := by
  intro keys k hk hname
  have hc : k ∈ container_spec_slice keys ↔ k ∈ container_spec_keys := by
    simp [container_spec_slice, List.mem_filter, hk]
  have hr : k ∈ resource_spec_slice keys ↔ k ∈ resource_spec_keys := by
    simp [resource_spec_slice, List.mem_filter, hk]
  have ht : k ∈ task_spec_slice keys ↔ k ∈ task_spec_keys := by
    simp [task_spec_slice, List.mem_filter, hk]
  have he : k ∈ endpoint_spec_slice keys ↔ k ∈ endpoint_spec_keys := by
    simp [endpoint_spec_slice, List.mem_filter, hk]
  have hrem : k ∈ remaining_keys keys ↔
      (k ∉ container_spec_keys ∧ k ∉ resource_spec_keys ∧ k ∉ task_spec_keys ∧
        k ∉ endpoint_spec_keys) := by
    simp [remaining_keys, List.mem_filter, hk, hname, and_assoc]
  by_cases h1 : k ∈ container_spec_keys
  · have h2 := cont_res_disjoint k h1
    have h3 := cont_task_disjoint k h1
    have h4 := cont_endp_disjoint k h1
    simp [List.countP_cons, hc, hr, ht, he, hrem, h1, h2, h3, h4]
  · by_cases h2 : k ∈ resource_spec_keys
    · have h3 := res_task_disjoint k h2
      have h4 := res_endp_disjoint k h2
      simp [List.countP_cons, hc, hr, ht, he, hrem, h1, h2, h3, h4]
    · by_cases h3 : k ∈ task_spec_keys
      · have h4 := task_endp_disjoint k h3
        simp [List.countP_cons, hc, hr, ht, he, hrem, h1, h2, h3, h4]
      · by_cases h4 : k ∈ endpoint_spec_keys
        · simp [List.countP_cons, hc, hr, ht, he, hrem, h1, h2, h3, h4]
        · simp [List.countP_cons, hc, hr, ht, he, hrem, h1, h2, h3, h4]

/-- C5 witness: a concrete option map with a container key, an endpoint key,
a resource key, the excluded name, and an unrecognized key, checked at the
unrecognized key. -/
theorem create_kwargs_partition_witness :
    ("foo" ∈ ["image", "ports", "mem_limit", "name", "foo"]) ∧ ("foo" ≠ "name") ∧
    List.countP (fun slice => decide ("foo" ∈ slice))
      [container_spec_slice ["image", "ports", "mem_limit", "name", "foo"],
       resource_spec_slice ["image", "ports", "mem_limit", "name", "foo"],
       task_spec_slice ["image", "ports", "mem_limit", "name", "foo"],
       endpoint_spec_slice ["image", "ports", "mem_limit", "name", "foo"],
       remaining_keys ["image", "ports", "mem_limit", "name", "foo"]] = 1 :=
  ⟨by decide, by decide,
    create_kwargs_partition_exactly_one ["image", "ports", "mem_limit", "name", "foo"] "foo"
      (by decide) (by decide)⟩

/-! ## C6 -/

/-- C6 (confirmed): `get_task` on the engine's task list returns no task for
zero matches, returns the single task for exactly one match, and for more
than one running task aborts with the distinguishable consistency-violation
`RuntimeError` — it never returns a task in that case. -/
theorem get_task_zero_one_many :
    ∀ (service_name : String) (t1 t2 : Task) (rest : List Task),
      get_task_of_list service_name [] = .ok none ∧
      get_task_of_list service_name [t1] = .ok (some t1) ∧
      get_task_of_list service_name (t1 :: t2 :: rest) =
        .error (.consistency_violation
          ("Found more than one running notebook task for service '" ++ service_name ++ "'")) := by
  intro service_name t1 t2 rest
  refine ⟨rfl, rfl, ?_⟩
  have hlen : (t1 :: t2 :: rest).length = rest.length + 2 := by simp
  simp [get_task_of_list, hlen]

/-! ## C7 -/

/-- C7 (confirmed): `get_service` returns no service and clears the stored
`service_id` when the inspect call fails with 404 (gone) or 500 (unhealthy
node); any other failure status propagates to the caller unmodified; a
successful inspect records the returned id. -/
theorem get_service_status_dispatch :
    ∀ (s : SwarmState) (svc : Service) (status : Nat),
      get_service s (.error 404) = .ok (none, { s with service_id := "" }) ∧
      get_service s (.error 500) = .ok (none, { s with service_id := "" }) ∧
      (status ≠ 404 → status ≠ 500 → get_service s (.error status) = .error status) ∧
      get_service s (.ok svc) = .ok (some svc, { s with service_id := svc.id }) := by
  intro s svc status
  refine ⟨rfl, rfl, ?_, rfl⟩
  intro h404 h500
  simp [get_service, h404, h500]

/-- C7 witness: a spawner that previously stored id `"old"`, checked on a 403
response (propagated) and a 404 response (absent, id cleared). -/
theorem get_service_status_dispatch_witness :
    (403 ≠ 404) ∧ (403 ≠ 500) ∧
    get_service { service_id := "old" } (.error 403) = .error 403 ∧
    get_service { service_id := "old" } (.error 404) = .ok (none, { service_id := "" }) :=
  ⟨by decide, by decide,
    (get_service_status_dispatch { service_id := "old" } { id := "x", env := [] } 403).2.2.1
      (by decide) (by decide),
    (get_service_status_dispatch { service_id := "old" } { id := "x", env := [] } 403).1⟩

/-! ## C8 -/

/-- C8 (confirmed): the guard `if self.get_service() is None` in `get_task`
compares an un-awaited coroutine call — which always yields a `Future`
object, never `None` — so the early-return branch is unreachable and
`get_task` proceeds to list tasks for every spawner state. -/
theorem get_task_guard_dead :
    ∀ (s : SwarmState) (service_name : String) (resp : Except Nat (List Task)),
      (get_service_unawaited s).isNone = false ∧
      get_task s service_name resp = get_task_engine service_name resp := by
  intro s service_name resp
  exact ⟨rfl, rfl⟩

/-! ## C9 helper -/

theorem extract_api_token_first_match :
    ∀ (pre post : List (List Char)) (line tok : List Char),
      (∀ l ∈ pre, token_line_matches l = false) → token_line_matches line = true →
      extract_api_token (pre ++ line :: post) tok = split_after_first_eq line := by
  intro pre
  induction pre with
  | nil =>
    intro post line tok _ hline
    simp [extract_api_token, hline]
  | cons p pre' ih =>
    intro post line tok hpre hline
    have hp : token_line_matches p = false := hpre p (List.mem_cons_self _ _)
    have hpre' : ∀ l ∈ pre', token_line_matches l = false :=
      fun l hl => hpre l (List.mem_cons_of_mem _ hl)
    simp only [List.cons_append, extract_api_token, hp, Bool.false_eq_true, if_false]
    exact ih post line tok hpre' hline

/-! ## C9 -/

/-- C9 (confirmed): on the reuse path of `start` (service present,
`remove_services` off), the session `api_token` is set from the first
environment line matching one of the two recognized key forms
(`JPY_API_TOKEN=` or `JUPYTERHUB_API_TOKEN=`), taking everything after the
first `=`, and no create call is issued on that path. -/
theorem start_reuse_token_no_create :
    ∀ (svc : Service) (api_token : List Char) (pre post : List (List Char)) (line : List Char),
      svc.env = pre ++ line :: post →
      (∀ l ∈ pre, token_line_matches l = false) →
      token_line_matches line = true →
      (start_calls_and_token (some svc) false api_token).2 = split_after_first_eq line ∧
      EngineCall.create_service ∉ (start_calls_and_token (some svc) false api_token).1 := by
  intro svc api_token pre post line henv hpre hline
  constructor
  · simp only [start_calls_and_token, Bool.false_eq_true, if_false, henv]
    exact extract_api_token_first_match pre post line api_token hpre hline
  · simp [start_calls_and_token]

/-- C9 witness: an existing service whose env holds `PATH=/bin` and
`JUPYTERHUB_API_TOKEN=abc123`; the reuse path extracts `abc123` and issues no
create call. -/
theorem start_reuse_token_no_create_witness :
    ({ id := "sid", env := ["PATH=/bin".toList, "JUPYTERHUB_API_TOKEN=abc123".toList] } :
        Service).env =
      ["PATH=/bin".toList] ++ "JUPYTERHUB_API_TOKEN=abc123".toList :: [] ∧
    (∀ l ∈ [("PATH=/bin".toList)], token_line_matches l = false) ∧
    token_line_matches "JUPYTERHUB_API_TOKEN=abc123".toList = true ∧
    ((start_calls_and_token
        (some { id := "sid", env := ["PATH=/bin".toList, "JUPYTERHUB_API_TOKEN=abc123".toList] })
        false []).2 = split_after_first_eq "JUPYTERHUB_API_TOKEN=abc123".toList ∧
      EngineCall.create_service ∉
        (start_calls_and_token
          (some { id := "sid", env := ["PATH=/bin".toList, "JUPYTERHUB_API_TOKEN=abc123".toList] })
          false []).1) ∧
    split_after_first_eq "JUPYTERHUB_API_TOKEN=abc123".toList = "abc123".toList :=
  ⟨rfl, by decide, by decide,
    start_reuse_token_no_create
      { id := "sid", env := ["PATH=/bin".toList, "JUPYTERHUB_API_TOKEN=abc123".toList] }
      [] ["PATH=/bin".toList] [] "JUPYTERHUB_API_TOKEN=abc123".toList rfl (by decide) (by decide),
    by decide⟩

/-! ## C10 -/

/-- C10 (confirmed): the persisted state round-trips — `get_state` includes
the `service_id` key exactly when `service_id` is non-empty, and `load_state`
applied to the output of `get_state` restores the same `service_id`, with the
empty string when the key is absent. -/
theorem service_id_state_roundtrip :
    ∀ service_id : String,
      load_state (get_state service_id) = service_id ∧
      (get_state service_id = none ↔ service_id = "") ∧
      load_state none = "" := by
  intro service_id
  by_cases h : service_id = "" <;> simp [load_state, get_state, h]

end SwarmSpawner
